import Mathlib

/-!
Shallow embedding of the expense-tracker backend (`src/backend/server.py`).

The Mongo document store is modelled as a Lean list of records per
collection; `find` with a filter is `List.filter`, `to_list(n)` is
`List.take n`, `insert_one` appends, and `update_one` rewrites the first
record matching the `id` equality predicate, reporting Mongo's
`modified_count` (the number of documents actually changed, which is `0`
both when nothing matched and when the `$set` was a no-op).

Python floats are modelled as exact rationals; datetimes carry the date
components only (time-of-day never matters for the bucketing logic the
spec describes), compared lexicographically.  A field that a stored Mongo
document may lack (`category_name`, `note` are read back with `dict.get`)
is modelled as `Option String`: `none` is an absent key, `some ""` a
present-but-empty value, exactly the distinction `dict.get` draws.
-/

namespace Pudi

/-- Calendar datetime restricted to its date components, ordered
lexicographically like Python `datetime`. -/
structure DateT where
  year : Int
  month : Int
  day : Int
deriving DecidableEq, Repr

/-- `a < b` on dates, lexicographic on (year, month, day). -/
def dateLT (a b : DateT) : Bool :=
  decide (a.year < b.year) ||
    (decide (a.year = b.year) &&
      (decide (a.month < b.month) ||
        (decide (a.month = b.month) && decide (a.day < b.day))))

/-- `a ≤ b` on dates. -/
def dateLE (a b : DateT) : Bool :=
  dateLT a b || decide (a = b)

/-- `TransactionType` enum from the source. -/
inductive TType where
  | expense
  | income
deriving DecidableEq, Repr

/-- A stored transaction document.  `category_name` and `note` are the two
fields the analytics/export code reads back with `dict.get`, so they are
`Option String` (`none` = key absent). -/
structure Transaction where
  id : String
  amount : ℚ
  category_id : String
  category_name : Option String
  type : TType
  date : DateT
  note : Option String
  is_recurring : Bool
  created_at : String
deriving DecidableEq, Repr

/-- `sum(t["amount"] for t in transactions if t["type"] == "income")`. -/
def total_income (ts : List Transaction) : ℚ :=
  ((ts.filter (fun t => t.type = TType.income)).map (·.amount)).sum

/-- `sum(t["amount"] for t in transactions if t["type"] == "expense")`. -/
def total_expense (ts : List Transaction) : ℚ :=
  ((ts.filter (fun t => t.type = TType.expense)).map (·.amount)).sum

/-- Python `dict.get(k, 0)` on an insertion-ordered association list. -/
def dictGet (d : List (String × ℚ)) (k : String) : ℚ :=
  match d.find? (fun p => p.1 = k) with
  | some p => p.2
  | none => 0

/-- Python `d[k] = v`: overwrite the first binding of `k`, or append a new
binding at the end (Python dicts preserve insertion order). -/
def dictSet (d : List (String × ℚ)) (k : String) (v : ℚ) : List (String × ℚ) :=
  match d with
  | [] => [(k, v)]
  | p :: rest => if p.1 = k then (k, v) :: rest else p :: dictSet rest k v

/-- One iteration of the breakdown loop:
`if t["type"] == "expense": cat = t.get("category_name", "Other");
breakdown[cat] = breakdown.get(cat, 0) + t["amount"]`. -/
def breakdownStep (d : List (String × ℚ)) (t : Transaction) : List (String × ℚ) :=
  if t.type = TType.expense then
    let cat := t.category_name.getD "Other"
    dictSet d cat (dictGet d cat + t.amount)
  else d

/-- The `category_breakdown` dict built by `get_monthly_analytics`. -/
def category_breakdown (ts : List Transaction) : List (String × ℚ) :=
  ts.foldl breakdownStep []

/-- Round-half-to-even on a rational, the tie-breaking rule of Python's
builtin `round`. -/
def roundHalfEven (q : ℚ) : Int :=
  let fl := ⌊q⌋
  let frac := q - fl
  if frac < 1/2 then fl
  else if 1/2 < frac then fl + 1
  else if fl % 2 = 0 then fl else fl + 1

/-- Python `round(x, 1)`. -/
def pyRound1 (q : ℚ) : ℚ :=
  ((roundHalfEven (q * 10) : Int) : ℚ) / 10

/-- `(net_balance / total_income * 100) if total_income > 0 else 0`. -/
def savingsRaw (income net : ℚ) : ℚ :=
  if 0 < income then net / income * 100 else 0

/-- The half-open month window `[datetime(year, month, 1), end)` with
`end = datetime(year+1, 1, 1)` when `month == 12`, else
`datetime(year, month+1, 1)`. -/
def month_window (year month : Int) : DateT × DateT :=
  (⟨year, month, 1⟩, if month = 12 then ⟨year + 1, 1, 1⟩ else ⟨year, month + 1, 1⟩)

/-- The Mongo query `{"date": {"$gte": start_date, "$lt": end_date}}` over
the transactions collection. -/
def month_filter (year month : Int) (store : List Transaction) : List Transaction :=
  let w := month_window year month
  store.filter (fun t => dateLE w.1 t.date && dateLT t.date w.2)

/-- The window query followed by `.to_list(1000)`. -/
def monthTxs (year month : Int) (store : List Transaction) : List Transaction :=
  (month_filter year month store).take 1000

/-- Response shape of `get_monthly_analytics`. -/
structure MonthlyReport where
  year : Int
  month : Int
  total_income : ℚ
  total_expense : ℚ
  net_balance : ℚ
  savings_percentage : ℚ
  category_breakdown : List (String × ℚ)
  transaction_count : Nat
deriving DecidableEq, Repr

/-- `GET /api/analytics/monthly`, lines 213-246 of the source. -/
def get_monthly_analytics (year month : Int) (store : List Transaction) :
    MonthlyReport :=
  let transactions := monthTxs year month store
  let ti := total_income transactions
  let te := total_expense transactions
  let net := ti - te
  { year := year
    month := month
    total_income := ti
    total_expense := te
    net_balance := net
    savings_percentage := pyRound1 (savingsRaw ti net)
    category_breakdown := category_breakdown transactions
    transaction_count := transactions.length }

/-- Errors an endpoint can raise: HTTP 400 ("No data to update"),
HTTP 404 ("not found"), and the crash that `Model(**None)` would be were
`find_one` ever to miss after a successful update (dead code, proved so). -/
inductive ApiError where
  | invalidInput
  | notFound
  | serverError
deriving DecidableEq, Repr

/-- A stored category document. -/
structure Category where
  id : String
  name : String
  color : String
  icon : String
  created_at : String
deriving DecidableEq, Repr

/-- `CategoryUpdate` model: every field optional. -/
structure CategoryUpdate where
  name : Option String
  color : Option String
  icon : Option String
deriving DecidableEq, Repr

/-- `not update_data` after dropping `None` fields: true iff every patch
field is `None`. -/
def CategoryUpdate.isEmpty (p : CategoryUpdate) : Bool :=
  p.name.isNone && p.color.isNone && p.icon.isNone

/-- Effect of `{"$set": update_data}` on a matched category: each supplied
field overwrites, each `None` field is dropped from `update_data` and so
leaves the stored value alone. -/
def mergeCategory (c : Category) (p : CategoryUpdate) : Category :=
  { id := c.id
    name := p.name.getD c.name
    color := p.color.getD c.color
    icon := p.icon.getD c.icon
    created_at := c.created_at }

/-- `TransactionUpdate` model: every field optional. -/
structure TransactionUpdate where
  amount : Option ℚ
  category_id : Option String
  category_name : Option String
  type : Option TType
  date : Option DateT
  note : Option String
  is_recurring : Option Bool
deriving DecidableEq, Repr

/-- `not update_data` for a transaction patch. -/
def TransactionUpdate.isEmpty (p : TransactionUpdate) : Bool :=
  p.amount.isNone && p.category_id.isNone && p.category_name.isNone &&
    p.type.isNone && p.date.isNone && p.note.isNone && p.is_recurring.isNone

/-- `$set` of a transaction patch into a stored transaction. -/
def mergeTransaction (t : Transaction) (p : TransactionUpdate) : Transaction :=
  { id := t.id
    amount := p.amount.getD t.amount
    category_id := p.category_id.getD t.category_id
    category_name := match p.category_name with
      | some s => some s
      | none => t.category_name
    type := p.type.getD t.type
    date := p.date.getD t.date
    note := match p.note with
      | some s => some s
      | none => t.note
    is_recurring := p.is_recurring.getD t.is_recurring
    created_at := t.created_at }

/-- A stored reminder document. -/
structure Reminder where
  id : String
  title : String
  message : String
  date : DateT
  time : String
  is_recurring : Bool
  is_enabled : Bool
  created_at : String
deriving DecidableEq, Repr

/-- `ReminderUpdate` model: every field optional. -/
structure ReminderUpdate where
  title : Option String
  message : Option String
  date : Option DateT
  time : Option String
  is_recurring : Option Bool
  is_enabled : Option Bool
deriving DecidableEq, Repr

/-- `not update_data` for a reminder patch. -/
def ReminderUpdate.isEmpty (p : ReminderUpdate) : Bool :=
  p.title.isNone && p.message.isNone && p.date.isNone && p.time.isNone &&
    p.is_recurring.isNone && p.is_enabled.isNone

/-- `$set` of a reminder patch into a stored reminder. -/
def mergeReminder (r : Reminder) (p : ReminderUpdate) : Reminder :=
  { id := r.id
    title := p.title.getD r.title
    message := p.message.getD r.message
    date := p.date.getD r.date
    time := p.time.getD r.time
    is_recurring := p.is_recurring.getD r.is_recurring
    is_enabled := p.is_enabled.getD r.is_enabled
    created_at := r.created_at }

/-- Mongo `update_one({"id": rid}, {"$set": ...})`: rewrite the first
document whose `id` equals `rid`, returning `modified_count` (1 only when
the rewrite actually changed the document) and the new collection. -/
def updateOne {ρ : Type} [DecidableEq ρ] (idOf : ρ → String) (merge : ρ → ρ) :
    List ρ → String → Nat × List ρ
  | [], _ => (0, [])
  | r :: rest, rid =>
    if idOf r = rid then
      (if merge r = r then 0 else 1, merge r :: rest)
    else
      let step := updateOne idOf merge rest rid
      (step.1, r :: step.2)

/-- The shared tail of the three PUT endpoints: run `update_one`, raise 404
when `modified_count == 0`, otherwise `find_one` the record back. -/
def runUpdate {ρ : Type} [DecidableEq ρ] (idOf : ρ → String) (merge : ρ → ρ)
    (store : List ρ) (rid : String) : Except ApiError ρ × List ρ :=
  let step := updateOne idOf merge store rid
  if step.1 = 0 then (.error .notFound, step.2)
  else
    match step.2.find? (fun r => idOf r = rid) with
    | some r => (.ok r, step.2)
    | none => (.error .serverError, step.2)

/-- `PUT /api/categories/{category_id}`, lines 141-153.  Returns the
response and the post-state of the categories collection. -/
def update_category (store : List Category) (cid : String) (p : CategoryUpdate) :
    Except ApiError Category × List Category :=
  if p.isEmpty then (.error .invalidInput, store)
  else runUpdate Category.id (fun c => mergeCategory c p) store cid

/-- `PUT /api/transactions/{transaction_id}`, lines 191-203. -/
def update_transaction (store : List Transaction) (tid : String)
    (p : TransactionUpdate) : Except ApiError Transaction × List Transaction :=
  if p.isEmpty then (.error .invalidInput, store)
  else runUpdate Transaction.id (fun t => mergeTransaction t p) store tid

/-- `PUT /api/reminders/{reminder_id}`, lines 295-307. -/
def update_reminder (store : List Reminder) (rid : String) (p : ReminderUpdate) :
    Except ApiError Reminder × List Reminder :=
  if p.isEmpty then (.error .invalidInput, store)
  else runUpdate Reminder.id (fun r => mergeReminder r p) store rid

/-- The hardcoded `DEFAULT_CATEGORIES` list, lines 107-116:
(name, color, icon) triples. -/
def DEFAULT_CATEGORIES : List (String × String × String) :=
  [("Food", "#EF4444", "🍔"),
   ("Rent", "#8B5CF6", "🏠"),
   ("Transport", "#3B82F6", "🚗"),
   ("Shopping", "#EC4899", "🛍️"),
   ("Bills", "#F59E0B", "📄"),
   ("Entertainment", "#10B981", "🎬"),
   ("Salary", "#22C55E", "💵"),
   ("Investments", "#6366F1", "📈")]

/-- `GET /api/categories`, lines 124-133.  `genId i` stands for the
`uuid4()` drawn for the i-th seeded default and `now` for its
`datetime.utcnow()` timestamp; `find().to_list(100)` is `take 100`.
Returns the response and the post-state of the collection. -/
def get_categories (genId : Nat → String) (now : String)
    (store : List Category) : List Category × List Category :=
  let categories := store.take 100
  if categories.isEmpty then
    let seeded := store ++ DEFAULT_CATEGORIES.enum.map
      (fun e => { id := genId e.1, name := e.2.1, color := e.2.2.1,
                  icon := e.2.2.2, created_at := now })
    (seeded.take 100, seeded)
  else (categories, store)

/-- `Jan` .. `Dec`, line 273. -/
def month_names : List String :=
  ["Jan", "Feb", "Mar", "Apr", "May", "Jun",
   "Jul", "Aug", "Sep", "Oct", "Nov", "Dec"]

/-- The `while month <= 0: month += 12; year -= 1` normalisation loop,
lines 256-258. -/
def normMonth (y m : Int) : Int × Int :=
  if m ≤ 0 then normMonth (y - 1) (m + 12) else (y, m)
termination_by (1 - m).toNat
decreasing_by omega

/-- One record of the six-month trend response. -/
structure MonthEntry where
  month : String
  year : Int
  income : ℚ
  expense : ℚ
deriving DecidableEq, Repr

/-- The body of the `for i in range(5, -1, -1)` loop of
`get_last_six_months`, lines 253-279, at loop index `i`. -/
def sixMonthEntry (nowY nowM : Int) (store : List Transaction) (i : Int) :
    MonthEntry :=
  let ym := normMonth nowY (nowM - i)
  let txs := monthTxs ym.1 ym.2 store
  { month := month_names.getD (ym.2 - 1).toNat ""
    year := ym.1
    income := total_income txs
    expense := total_expense txs }

/-- `GET /api/analytics/last-six-months`, lines 248-281, with "now" made
explicit as a (year, month) pair. -/
def get_last_six_months (nowY nowM : Int) (store : List Transaction) :
    List MonthEntry :=
  ([5, 4, 3, 2, 1, 0] : List Int).map (sixMonthEntry nowY nowM store)

/-- Left-pad a nonnegative integer's decimal form with zeros to `w` digits,
as `strftime` field formatting does. -/
def padZ (w : Nat) (n : Int) : String :=
  let s := toString n
  if s.length < w then String.mk (List.replicate (w - s.length) '0') ++ s else s

/-- `t["date"].strftime("%Y-%m-%d")`. -/
def csvDate (d : DateT) : String :=
  padZ 4 d.year ++ "-" ++ padZ 2 d.month ++ "-" ++ padZ 2 d.day

/-- The stored string value of the `type` field. -/
def csvType : TType → String
  | .expense => "expense"
  | .income => "income"

/-- Renders the amount field.  Python's float `repr` is abstracted as
rational printing; no claim depends on this field's text. -/
def amountRepr (q : ℚ) : String := toString q

/-- Python `str.replace` specialised to a one-character pattern (the only
form the source uses): every occurrence of `c` becomes `rep`. -/
def pyReplaceChar : List Char → Char → List Char → List Char
  | [], _, _ => []
  | a :: rest, c, rep =>
    if a = c then rep ++ pyReplaceChar rest c rep
    else a :: pyReplaceChar rest c rep

/-- `t.get("note", "").replace('"', '""').replace(',', ' ')`, line 332. -/
def export_note (t : Transaction) : String :=
  String.mk (pyReplaceChar (pyReplaceChar (t.note.getD "").data '\"' ['\"', '\"']) ',' [' '])

/-- The five comma-joined fields of one CSV data row, line 333: the
f-string places the escaped note between literal double quotes. -/
def export_fields (t : Transaction) : List String :=
  [csvDate t.date, csvType t.type, t.category_name.getD "Other",
   amountRepr t.amount, "\"" ++ export_note t ++ "\""]

/-- One CSV data row. -/
def export_row (t : Transaction) : String :=
  String.intercalate "," (export_fields t)

/-- The inclusive date-range filter of `GET /api/export/csv`,
lines 319-325: bounds present only when supplied. -/
def exportFilter (startd endd : Option DateT) (store : List Transaction) :
    List Transaction :=
  store.filter (fun t =>
    (match startd with | some s => dateLE s t.date | none => true) &&
    (match endd with | some e => dateLE t.date e | none => true))

/-- The `csv_content` of `GET /api/export/csv`, lines 317-335: header row
then one row per fetched transaction, newline-joined.  The Mongo sort by
date descending is modelled by taking the fetched order as given in
`fetched`; the claims below concern the per-row rendering. -/
def export_csv_content (fetched : List Transaction) : String :=
  String.intercalate "\n"
    ("Date,Type,Category,Amount,Notes" :: (fetched.take 10000).map export_row)

/-! Spec-side definitions used to state the claims, and concrete records
used by counterexamples and witnesses. -/

/-- Sum of the values of an association-list dict. -/
def sumValues (d : List (String × ℚ)) : ℚ :=
  (d.map (·.2)).sum

/-- Python `d.get(k)` as an option: the value at the first binding of `k`. -/
def dictFind (d : List (String × ℚ)) (k : String) : Option ℚ :=
  (d.find? (fun p => p.1 = k)).map (·.2)

/-- The grouping key the breakdown loop uses for a transaction. -/
def expKey (t : Transaction) : String :=
  t.category_name.getD "Other"

/-- Is `t` an expense transaction grouped under key `k`? -/
def isExpFor (k : String) (t : Transaction) : Bool :=
  decide (t.type = TType.expense) && decide (expKey t = k)

/-- Spec-side summed expense amount for key `k`. -/
def expenseSumFor (k : String) (ts : List Transaction) : ℚ :=
  ((ts.filter (isExpFor k)).map (·.amount)).sum

/-- Does any expense transaction of `ts` fall under key `k`? -/
def hasExpenseFor (k : String) (ts : List Transaction) : Bool :=
  ts.any (isExpFor k)

/-- Spec-side successor month: month 12 rolls into January of `year + 1`. -/
def specNextMonth (year month : Int) : Int × Int :=
  if month = 12 then (year + 1, 1) else (year, month + 1)

/-- Spec-side window membership: the date lies in the half-open window
from the first day of the month to the first day of the next month. -/
def inMonthWindowSpec (year month : Int) (d : DateT) : Prop :=
  dateLE ⟨year, month, 1⟩ d = true ∧
    dateLT d ⟨(specNextMonth year month).1, (specNextMonth year month).2, 1⟩ = true

/-- An expense transaction whose stored `category_name` is the empty
string (present but empty). -/
def txEmptyName : Transaction :=
  { id := "t1", amount := 5, category_id := "c1", category_name := some "",
    type := TType.expense, date := ⟨2024, 1, 15⟩, note := none,
    is_recurring := false, created_at := "t" }

/-- An expense transaction with an empty stored `category_name`, used
against the CSV export. -/
def txCsvEmptyName : Transaction :=
  { id := "t2", amount := 3, category_id := "c1", category_name := some "",
    type := TType.expense, date := ⟨2024, 2, 3⟩, note := some "n",
    is_recurring := false, created_at := "t" }

/-- A transaction whose note is `He said "hi", now`. -/
def txQuoteNote : Transaction :=
  { id := "t3", amount := 1, category_id := "c1", category_name := some "Food",
    type := TType.expense, date := ⟨2024, 2, 4⟩, note := some "He said \"hi\", now",
    is_recurring := false, created_at := "t" }

/-- A stored category used by the update counterexample. -/
def catFood : Category :=
  { id := "c1", name := "Food", color := "#EF4444", icon := "🍔", created_at := "t" }

/-- A non-empty patch that sets `name` to the value it already has. -/
def patchFoodName : CategoryUpdate :=
  { name := some "Food", color := none, icon := none }

/-- A catalog of 101 identical categories. -/
def bigCatalog : List Category :=
  List.replicate 101 catFood

/-! Helper lemmas. -/

theorem dictFind_dictSet_self (d : List (String × ℚ)) (k : String) (v : ℚ) :
    dictFind (dictSet d k v) k = some v := by
  induction d with
  | nil => simp [dictFind, dictSet, List.find?]
  | cons p rest ih =>
    by_cases h : p.1 = k
    · simp [dictFind, dictSet, h, List.find?]
    · simpa [dictFind, dictSet, h, List.find?] using ih

theorem dictFind_dictSet_ne (d : List (String × ℚ)) (k k' : String) (v : ℚ)
    (h : k' ≠ k) : dictFind (dictSet d k v) k' = dictFind d k' := by
  have h2 : ¬ (k = k') := fun hh => h hh.symm
  induction d with
  | nil => simp [dictFind, dictSet, List.find?, h2]
  | cons p rest ih =>
    by_cases hp : p.1 = k
    · have hset : dictSet (p :: rest) k v = (k, v) :: rest := by
        simp [dictSet, hp]
      have hp' : ¬ p.1 = k' := by rw [hp]; exact h2
      rw [hset]
      simp [dictFind, List.find?, h2, hp']
    · have hset : dictSet (p :: rest) k v = p :: dictSet rest k v := by
        simp [dictSet, hp]
      rw [hset]
      by_cases hq : p.1 = k'
      · simp [dictFind, List.find?, hq]
      · simp only [dictFind, List.find?, hq, decide_eq_true_eq]
        simpa [dictFind, hq] using ih

theorem dictGet_eq_find (d : List (String × ℚ)) (k : String) :
    dictGet d k = (dictFind d k).getD 0 := by
  unfold dictGet dictFind
  cases h : d.find? (fun p => p.1 = k) <;> simp [h]

theorem sumValues_dictSet (d : List (String × ℚ)) (k : String) (v : ℚ) :
    sumValues (dictSet d k v) = sumValues d - dictGet d k + v := by
  induction d with
  | nil => simp [sumValues, dictSet, dictGet, List.find?]
  | cons p rest ih =>
    by_cases h : p.1 = k
    · simp [sumValues, dictSet, dictGet, h, List.find?]
      ring
    · simp only [sumValues, dictSet, h, if_false, List.map_cons, List.sum_cons]
      have hg : dictGet (p :: rest) k = dictGet rest k := by
        simp [dictGet, List.find?, h]
      rw [hg]
      have := ih
      simp only [sumValues] at this
      rw [this]
      ring

theorem sumValues_foldl_breakdown (ts : List Transaction) (d : List (String × ℚ)) :
    sumValues (ts.foldl breakdownStep d) = sumValues d + total_expense ts := by
  induction ts generalizing d with
  | nil => simp [total_expense]
  | cons t ts ih =>
    rw [List.foldl_cons, ih]
    by_cases ht : t.type = TType.expense
    · simp only [breakdownStep, ht, if_true]
      rw [sumValues_dictSet]
      have : total_expense (t :: ts) = t.amount + total_expense ts := by
        simp [total_expense, List.filter_cons, ht]
      rw [this]
      ring
    · simp only [breakdownStep, ht, if_false]
      have : total_expense (t :: ts) = total_expense ts := by
        simp [total_expense, List.filter_cons, ht]
      rw [this]

theorem dictFind_foldl_breakdown (ts : List Transaction) (d : List (String × ℚ))
    (k : String) :
    dictFind (ts.foldl breakdownStep d) k =
      match dictFind d k with
      | some v => some (v + expenseSumFor k ts)
      | none =>
        if hasExpenseFor k ts then some (expenseSumFor k ts) else none := by
  induction ts generalizing d with
  | nil =>
    cases h : dictFind d k <;>
      simp [expenseSumFor, hasExpenseFor, h, List.filter_nil]
  | cons t ts ih =>
    rw [List.foldl_cons, ih]
    by_cases ht : t.type = TType.expense
    · by_cases hc : expKey t = k
      · have hc2 : t.category_name.getD "Other" = k := hc
        have hstep : breakdownStep d t = dictSet d k (dictGet d k + t.amount) := by
          simp [breakdownStep, ht, hc2]
        have hfor : isExpFor k t = true := by simp [isExpFor, ht, hc]
        rw [hstep, dictFind_dictSet_self]
        have hS : expenseSumFor k (t :: ts) = t.amount + expenseSumFor k ts := by
          simp [expenseSumFor, List.filter_cons, hfor]
        have hH : hasExpenseFor k (t :: ts) = true := by
          simp [hasExpenseFor, hfor]
        rw [hS, hH]
        rw [dictGet_eq_find d k]
        cases h : dictFind d k <;> simp [h]
        ring
      · have hstep : breakdownStep d t =
            dictSet d (expKey t) (dictGet d (expKey t) + t.amount) := by
          simp [breakdownStep, ht, expKey]
        have hfor : isExpFor k t = false := by simp [isExpFor, ht, hc]
        rw [hstep, dictFind_dictSet_ne _ _ _ _ (fun hh => hc hh.symm)]
        have hS : expenseSumFor k (t :: ts) = expenseSumFor k ts := by
          simp [expenseSumFor, List.filter_cons, hfor]
        have hH : hasExpenseFor k (t :: ts) = hasExpenseFor k ts := by
          simp [hasExpenseFor, hfor]
        rw [hS, hH]
    · have hstep : breakdownStep d t = d := by simp [breakdownStep, ht]
      have hfor : isExpFor k t = false := by simp [isExpFor, ht]
      have hS : expenseSumFor k (t :: ts) = expenseSumFor k ts := by
        simp [expenseSumFor, List.filter_cons, hfor]
      have hH : hasExpenseFor k (t :: ts) = hasExpenseFor k ts := by
        simp [hasExpenseFor, hfor]
      rw [hstep, hS, hH]

theorem mem_of_mem_monthTxs (year month : Int) (store : List Transaction)
    (t : Transaction) (h : t ∈ monthTxs year month store) : t ∈ store := by
  unfold monthTxs month_filter at h
  exact List.mem_of_mem_filter (List.mem_of_mem_take h)

theorem total_income_nonneg (ts : List Transaction)
    (h : ∀ t ∈ ts, 0 ≤ t.amount) : 0 ≤ total_income ts := by
  unfold total_income
  refine List.sum_nonneg ?_
  intro x hx
  obtain ⟨t, ht, rfl⟩ := List.mem_map.mp hx
  exact h t (List.mem_of_mem_filter ht)

theorem pyRound1_zero : pyRound1 0 = 0 := by
  norm_num [pyRound1, roundHalfEven]

/-! Claim theorems. -/

/-- C1: for every set of transactions in the monthly window (amounts
nonnegative per the data model), the report's `savings_percentage` is
exactly 0 when `total_income` is 0, whatever `total_expense` is, and
otherwise equals `round(net_balance / total_income * 100, 1)`; the value
is always defined. -/
theorem monthly_savings_percentage (year month : Int) (store : List Transaction)
    (h : ∀ t ∈ store, 0 ≤ t.amount) :
    ((get_monthly_analytics year month store).total_income = 0 →
      (get_monthly_analytics year month store).savings_percentage = 0) ∧
    ((get_monthly_analytics year month store).total_income ≠ 0 →
      (get_monthly_analytics year month store).savings_percentage =
        pyRound1 ((get_monthly_analytics year month store).net_balance /
          (get_monthly_analytics year month store).total_income * 100)) := by
  have hnn : 0 ≤ total_income (monthTxs year month store) :=
    total_income_nonneg _ (fun t ht => h t (mem_of_mem_monthTxs year month store t ht))
  constructor
  · intro h0
    have h0' : total_income (monthTxs year month store) = 0 := h0
    simp only [get_monthly_analytics, savingsRaw, h0']
    norm_num [pyRound1_zero]
  · intro h0
    have h0' : total_income (monthTxs year month store) ≠ 0 := h0
    have hpos : 0 < total_income (monthTxs year month store) :=
      lt_of_le_of_ne hnn (Ne.symm h0')
    simp only [get_monthly_analytics, savingsRaw, if_pos hpos]

/-- C1 witness: a store with a single January-2024 expense of 5 has zero
income and a savings percentage of exactly 0. -/
theorem monthly_savings_percentage_witness :
    (∀ t ∈ [txEmptyName], 0 ≤ t.amount) ∧
    ((get_monthly_analytics 2024 1 [txEmptyName]).total_income = 0 →
      (get_monthly_analytics 2024 1 [txEmptyName]).savings_percentage = 0) :=
  ⟨by decide, (monthly_savings_percentage 2024 1 [txEmptyName] (by decide)).1⟩

/-- C10: the values of the returned `category_breakdown` sum to the
returned `total_expense`: every expense transaction in the window is
counted exactly once and no income transaction contributes. -/
theorem breakdown_sums_to_total_expense (year month : Int)
    (store : List Transaction) :
    sumValues (get_monthly_analytics year month store).category_breakdown =
      (get_monthly_analytics year month store).total_expense := by
  simp only [get_monthly_analytics, category_breakdown]
  rw [sumValues_foldl_breakdown]
  simp [sumValues]

/-- C2 counterexample: an expense transaction whose stored
`category_name` is the empty string is grouped under the empty-string
key, not under "Other", refuting the claim that empty names default to
"Other". -/
theorem breakdown_empty_name_cex :
    txEmptyName.type = TType.expense ∧
    txEmptyName.category_name = some "" ∧
    (get_monthly_analytics 2024 1 [txEmptyName]).category_breakdown = [("", 5)] ∧
    dictFind (get_monthly_analytics 2024 1 [txEmptyName]).category_breakdown
      "Other" = none := by
  have hw : monthTxs 2024 1 [txEmptyName] = [txEmptyName] := rfl
  have h3 : (get_monthly_analytics 2024 1 [txEmptyName]).category_breakdown =
      [("", 5)] := by
    show category_breakdown (monthTxs 2024 1 [txEmptyName]) = [("", 5)]
    rw [hw]
    simp only [category_breakdown, List.foldl_cons, List.foldl_nil]
    norm_num [breakdownStep, txEmptyName, dictSet, dictGet, List.find?]
  exact ⟨rfl, rfl, h3, by rw [h3]; rfl⟩

/-- C2 (amended): `category_breakdown` is built only over expense-type
transactions of the fetched window, keyed by `category_name` with summed
amounts; a transaction whose `category_name` key is absent is grouped
under the literal key "Other", while a present-but-empty `category_name`
is grouped under the empty-string key. -/
theorem breakdown_characterisation (year month : Int) (store : List Transaction)
    (k : String) :
    dictFind (get_monthly_analytics year month store).category_breakdown k =
      if hasExpenseFor k (monthTxs year month store) then
        some (expenseSumFor k (monthTxs year month store))
      else none := by
  simp only [get_monthly_analytics, category_breakdown]
  rw [dictFind_foldl_breakdown]
  simp [dictFind]

/-- C7: an update whose patch has no non-null fields fails with
InvalidInput and leaves the store untouched, for every target identifier,
for category, transaction and reminder updates alike. -/
theorem update_empty_patch_invalid
    (cs : List Category) (ts : List Transaction) (rs : List Reminder)
    (i j l : String) (pc : CategoryUpdate) (pt : TransactionUpdate)
    (pr : ReminderUpdate)
    (hc : pc.isEmpty = true) (ht : pt.isEmpty = true) (hr : pr.isEmpty = true) :
    update_category cs i pc = (.error .invalidInput, cs) ∧
    update_transaction ts j pt = (.error .invalidInput, ts) ∧
    update_reminder rs l pr = (.error .invalidInput, rs) := by
  refine ⟨?_, ?_, ?_⟩ <;> simp [update_category, update_transaction,
    update_reminder, hc, ht, hr]

/-- C7 witness: the all-null patches fail with InvalidInput on concrete
stores. -/
theorem update_empty_patch_invalid_witness :
    update_category [catFood] "c1" ⟨none, none, none⟩ =
      (.error .invalidInput, [catFood]) ∧
    update_transaction [] "x" ⟨none, none, none, none, none, none, none⟩ =
      (.error .invalidInput, []) ∧
    update_reminder [] "y" ⟨none, none, none, none, none, none⟩ =
      (.error .invalidInput, []) :=
  update_empty_patch_invalid [catFood] [] [] "c1" "x" "y" _ _ _ rfl rfl rfl

/-- C8: on an empty catalog the first `list()` call seeds exactly the
eight hardcoded defaults, in order, with their fixed colors and icons,
and returns them; a second call returns the same eight without inserting
anything. -/
theorem categories_seed_idempotent (genId genId2 : Nat → String)
    (now now2 : String) :
    (get_categories genId now []).1.length = 8 ∧
    (get_categories genId now []).1.map (fun c => (c.name, c.color, c.icon)) =
      DEFAULT_CATEGORIES ∧
    (get_categories genId now []).2 = (get_categories genId now []).1 ∧
    get_categories genId2 now2 (get_categories genId now []).2 =
      ((get_categories genId now []).2, (get_categories genId now []).2) :=
  ⟨rfl, rfl, rfl, rfl⟩

theorem get_categories_of_ne_nil (genId : Nat → String) (now : String)
    (store : List Category) (h : store ≠ []) :
    get_categories genId now store = (store.take 100, store) := by
  match store with
  | [] => exact absurd rfl h
  | a :: l => rfl

/-- C9 counterexample: on a catalog of 101 stored categories, `list()`
returns only 100 of them, refuting "returns all stored categories,
however many there are". -/
theorem categories_cap_cex :
    bigCatalog ≠ [] ∧
    (get_categories (fun _ => "u") "t" bigCatalog).1 ≠ bigCatalog := by
  have hne : bigCatalog ≠ [] := by simp [bigCatalog]
  refine ⟨hne, ?_⟩
  rw [get_categories_of_ne_nil _ _ _ hne]
  intro h
  have hlen := congrArg List.length h
  simp [bigCatalog] at hlen

/-- C9 (amended): for every non-empty catalog state holding at most 100
categories, `list()` returns all of them (and in general returns the
first 100 stored). -/
theorem categories_list_returns_all (genId : Nat → String) (now : String)
    (store : List Category) (h1 : store ≠ []) (h2 : store.length ≤ 100) :
    get_categories genId now store = (store, store) := by
  rw [get_categories_of_ne_nil genId now store h1, List.take_of_length_le h2]

/-- C9 witness: a one-category catalog is returned whole. -/
theorem categories_list_returns_all_witness :
    get_categories (fun _ => "u") "t" [catFood] = ([catFood], [catFood]) :=
  categories_list_returns_all (fun _ => "u") "t" [catFood]
    (by simp) (by norm_num)

/-- C6 counterexample: a transaction whose stored `category_name` is the
empty string renders an empty category field, not the literal "Other",
refuting the claim that empty names default to "Other" in the CSV
export. -/
theorem export_other_default_cex :
    txCsvEmptyName.category_name = some "" ∧
    (export_fields txCsvEmptyName).getD 2 "" ≠ "Other" := by
  exact ⟨rfl, by decide⟩

/-- C6 (amended): in each CSV data row the category field is the literal
"Other" exactly when `category_name` is absent, a present (possibly
empty) `category_name` rendering verbatim; the note field doubles every
internal double quote, replaces every comma with a single space, and is
wrapped in double quotes regardless of content, so the note
`He said "hi", now` renders as `"He said ""hi""  now"`. -/
theorem export_row_rendering (t : Transaction) :
    ((export_fields t).getD 2 "" =
      match t.category_name with
      | none => "Other"
      | some s => s) ∧
    ((export_fields t).getD 4 "" = "\"" ++ export_note t ++ "\"") ∧
    export_note txQuoteNote = "He said \"\"hi\"\"  now" ∧
    (export_fields txQuoteNote).getD 4 "" = "\"He said \"\"hi\"\"  now\"" := by
  refine ⟨?_, rfl, by decide, by decide⟩
  cases h : t.category_name <;> simp [export_fields, h, List.getD]

/-- C3: for every year and month in 1..12, the monthly query selects
exactly the transactions whose date lies in the half-open window from
the first of the month to the first of the next month, with December
rolling into January of `year + 1`; concretely, the December 2024 window
is `[2024-12-01, 2025-01-01)`. -/
theorem month_window_correct (year month : Int) (store : List Transaction)
    (t : Transaction) (_h1 : 1 ≤ month) (_h2 : month ≤ 12) :
    (t ∈ month_filter year month store ↔
      t ∈ store ∧ inMonthWindowSpec year month t.date) ∧
    (t ∈ month_filter 2024 12 store ↔
      t ∈ store ∧ (dateLE ⟨2024, 12, 1⟩ t.date = true ∧
        dateLT t.date ⟨2025, 1, 1⟩ = true)) := by
  constructor
  · unfold month_filter month_window inMonthWindowSpec specNextMonth
    by_cases h12 : month = 12 <;> simp [h12, List.mem_filter]
  · unfold month_filter month_window
    norm_num [List.mem_filter]

/-- C3 witness: the January 2024 window admits a mid-January
transaction. -/
theorem month_window_correct_witness :
    (1 : Int) ≤ 1 ∧
    (txEmptyName ∈ month_filter 2024 1 [txEmptyName] ↔
      txEmptyName ∈ [txEmptyName] ∧ inMonthWindowSpec 2024 1 txEmptyName.date) :=
  ⟨by norm_num,
    (month_window_correct 2024 1 [txEmptyName] txEmptyName
      (by norm_num) (by norm_num)).1⟩

theorem updateOne_no_match {ρ : Type} [DecidableEq ρ] (idOf : ρ → String)
    (merge : ρ → ρ) (s : List ρ) (rid : String)
    (h : ∀ r ∈ s, idOf r ≠ rid) : updateOne idOf merge s rid = (0, s) := by
  induction s with
  | nil => rfl
  | cons r rest ih =>
    have hr : ¬ idOf r = rid := h r (List.mem_cons_self r rest)
    simp only [updateOne, hr, if_false]
    rw [ih (fun x hx => h x (List.mem_cons_of_mem r hx))]

theorem updateOne_first_match {ρ : Type} [DecidableEq ρ] (idOf : ρ → String)
    (merge : ρ → ρ) (s₁ : List ρ) (r : ρ) (s₂ : List ρ) (rid : String)
    (h1 : ∀ x ∈ s₁, idOf x ≠ rid) (h2 : idOf r = rid) :
    updateOne idOf merge (s₁ ++ r :: s₂) rid =
      (if merge r = r then 0 else 1, s₁ ++ merge r :: s₂) := by
  induction s₁ with
  | nil => simp [updateOne, h2]
  | cons x s₁ ih =>
    have hx : ¬ idOf x = rid := h1 x (List.mem_cons_self x s₁)
    simp only [List.cons_append, updateOne, hx, if_false, List.append_eq]
    rw [ih (fun y hy => h1 y (List.mem_cons_of_mem x hy))]

theorem find?_first {ρ : Type} (p : ρ → Bool) (s₁ : List ρ) (r : ρ) (s₂ : List ρ)
    (h1 : ∀ x ∈ s₁, p x = false) (h2 : p r = true) :
    (s₁ ++ r :: s₂).find? p = some r := by
  induction s₁ with
  | nil => simp [List.find?, h2]
  | cons x s₁ ih =>
    simp only [List.cons_append, List.find?, h1 x (List.mem_cons_self x s₁)]
    exact ih (fun y hy => h1 y (List.mem_cons_of_mem x hy))

theorem runUpdate_no_match {ρ : Type} [DecidableEq ρ] (idOf : ρ → String)
    (merge : ρ → ρ) (s : List ρ) (rid : String)
    (h : ∀ r ∈ s, idOf r ≠ rid) :
    runUpdate idOf merge s rid = (.error .notFound, s) := by
  simp [runUpdate, updateOne_no_match idOf merge s rid h]

theorem runUpdate_noop {ρ : Type} [DecidableEq ρ] (idOf : ρ → String)
    (merge : ρ → ρ) (s₁ : List ρ) (r : ρ) (s₂ : List ρ) (rid : String)
    (h1 : ∀ x ∈ s₁, idOf x ≠ rid) (h2 : idOf r = rid) (h3 : merge r = r) :
    runUpdate idOf merge (s₁ ++ r :: s₂) rid =
      (.error .notFound, s₁ ++ r :: s₂) := by
  simp [runUpdate, updateOne_first_match idOf merge s₁ r s₂ rid h1 h2, h3]

theorem runUpdate_changed {ρ : Type} [DecidableEq ρ] (idOf : ρ → String)
    (merge : ρ → ρ) (s₁ : List ρ) (r : ρ) (s₂ : List ρ) (rid : String)
    (h1 : ∀ x ∈ s₁, idOf x ≠ rid) (h2 : idOf r = rid) (h3 : merge r ≠ r)
    (h4 : idOf (merge r) = rid) :
    runUpdate idOf merge (s₁ ++ r :: s₂) rid =
      (.ok (merge r), s₁ ++ merge r :: s₂) := by
  have hfind : (s₁ ++ merge r :: s₂).find? (fun x => idOf x = rid) =
      some (merge r) :=
    find?_first _ s₁ (merge r) s₂ (fun x hx => by simp [h1 x hx]) (by simp [h4])
  simp [runUpdate, updateOne_first_match idOf merge s₁ r s₂ rid h1 h2, h3, hfind]

/-- C4 counterexample: a non-empty patch that re-supplies an existing
category's current name matches one record but modifies none, and the
endpoint answers NotFound although a record matched — refuting "fails
with NotFound exactly when zero records matched". -/
theorem update_notfound_cex :
    catFood.id = "c1" ∧
    patchFoodName.isEmpty = false ∧
    update_category [catFood] "c1" patchFoodName =
      (.error .notFound, [catFood]) := by
  refine ⟨rfl, rfl, ?_⟩
  have h := runUpdate_noop Category.id (fun c => mergeCategory c patchFoodName)
    [] catFood [] "c1" (by simp) rfl (by decide)
  simpa [update_category] using h

/-- C4 (amended): for every non-empty patch, update applied to an
existing record rewrites exactly the supplied fields and leaves every
other stored field and record unchanged, and fails with NotFound exactly
when zero records were modified: when no record bears the identifier, or
when the patch leaves the first matching record unchanged; for category,
transaction, and reminder update alike. -/
theorem update_merge_semantics :
    (∀ (s : List Category) (cid : String) (p : CategoryUpdate),
      p.isEmpty = false → (∀ x ∈ s, x.id ≠ cid) →
      update_category s cid p = (.error .notFound, s)) ∧
    (∀ (s₁ : List Category) (c : Category) (s₂ : List Category) (cid : String)
      (p : CategoryUpdate),
      p.isEmpty = false → (∀ x ∈ s₁, x.id ≠ cid) → c.id = cid →
      ((mergeCategory c p).id = c.id ∧
        (mergeCategory c p).name = p.name.getD c.name ∧
        (mergeCategory c p).color = p.color.getD c.color ∧
        (mergeCategory c p).icon = p.icon.getD c.icon ∧
        (mergeCategory c p).created_at = c.created_at) ∧
      (mergeCategory c p = c →
        update_category (s₁ ++ c :: s₂) cid p =
          (.error .notFound, s₁ ++ c :: s₂)) ∧
      (mergeCategory c p ≠ c →
        update_category (s₁ ++ c :: s₂) cid p =
          (.ok (mergeCategory c p), s₁ ++ mergeCategory c p :: s₂))) ∧
    (∀ (s : List Transaction) (tid : String) (p : TransactionUpdate),
      p.isEmpty = false → (∀ x ∈ s, x.id ≠ tid) →
      update_transaction s tid p = (.error .notFound, s)) ∧
    (∀ (s₁ : List Transaction) (c : Transaction) (s₂ : List Transaction)
      (tid : String) (p : TransactionUpdate),
      p.isEmpty = false → (∀ x ∈ s₁, x.id ≠ tid) → c.id = tid →
      ((mergeTransaction c p).id = c.id ∧
        (mergeTransaction c p).amount = p.amount.getD c.amount ∧
        (mergeTransaction c p).category_id = p.category_id.getD c.category_id ∧
        (mergeTransaction c p).category_name =
          (match p.category_name with
            | some v => some v
            | none => c.category_name) ∧
        (mergeTransaction c p).type = p.type.getD c.type ∧
        (mergeTransaction c p).date = p.date.getD c.date ∧
        (mergeTransaction c p).note =
          (match p.note with
            | some v => some v
            | none => c.note) ∧
        (mergeTransaction c p).is_recurring =
          p.is_recurring.getD c.is_recurring ∧
        (mergeTransaction c p).created_at = c.created_at) ∧
      (mergeTransaction c p = c →
        update_transaction (s₁ ++ c :: s₂) tid p =
          (.error .notFound, s₁ ++ c :: s₂)) ∧
      (mergeTransaction c p ≠ c →
        update_transaction (s₁ ++ c :: s₂) tid p =
          (.ok (mergeTransaction c p), s₁ ++ mergeTransaction c p :: s₂))) ∧
    (∀ (s : List Reminder) (rid : String) (p : ReminderUpdate),
      p.isEmpty = false → (∀ x ∈ s, x.id ≠ rid) →
      update_reminder s rid p = (.error .notFound, s)) ∧
    (∀ (s₁ : List Reminder) (c : Reminder) (s₂ : List Reminder) (rid : String)
      (p : ReminderUpdate),
      p.isEmpty = false → (∀ x ∈ s₁, x.id ≠ rid) → c.id = rid →
      ((mergeReminder c p).id = c.id ∧
        (mergeReminder c p).title = p.title.getD c.title ∧
        (mergeReminder c p).message = p.message.getD c.message ∧
        (mergeReminder c p).date = p.date.getD c.date ∧
        (mergeReminder c p).time = p.time.getD c.time ∧
        (mergeReminder c p).is_recurring = p.is_recurring.getD c.is_recurring ∧
        (mergeReminder c p).is_enabled = p.is_enabled.getD c.is_enabled ∧
        (mergeReminder c p).created_at = c.created_at) ∧
      (mergeReminder c p = c →
        update_reminder (s₁ ++ c :: s₂) rid p =
          (.error .notFound, s₁ ++ c :: s₂)) ∧
      (mergeReminder c p ≠ c →
        update_reminder (s₁ ++ c :: s₂) rid p =
          (.ok (mergeReminder c p), s₁ ++ mergeReminder c p :: s₂))) := by
  refine ⟨?_, ?_, ?_, ?_, ?_, ?_⟩
  · intro s cid p hp hno
    simp only [update_category, hp, Bool.false_eq_true, if_false]
    exact runUpdate_no_match _ _ s cid hno
  · intro s₁ c s₂ cid p hp hno hc
    refine ⟨⟨rfl, rfl, rfl, rfl, rfl⟩, ?_, ?_⟩
    · intro hm
      simp only [update_category, hp, Bool.false_eq_true, if_false]
      exact runUpdate_noop _ _ s₁ c s₂ cid hno hc hm
    · intro hm
      simp only [update_category, hp, Bool.false_eq_true, if_false]
      exact runUpdate_changed _ _ s₁ c s₂ cid hno hc hm hc
  · intro s tid p hp hno
    simp only [update_transaction, hp, Bool.false_eq_true, if_false]
    exact runUpdate_no_match _ _ s tid hno
  · intro s₁ c s₂ tid p hp hno hc
    refine ⟨⟨rfl, rfl, rfl, rfl, rfl, rfl, rfl, rfl, rfl⟩, ?_, ?_⟩
    · intro hm
      simp only [update_transaction, hp, Bool.false_eq_true, if_false]
      exact runUpdate_noop _ _ s₁ c s₂ tid hno hc hm
    · intro hm
      simp only [update_transaction, hp, Bool.false_eq_true, if_false]
      exact runUpdate_changed _ _ s₁ c s₂ tid hno hc hm hc
  · intro s rid p hp hno
    simp only [update_reminder, hp, Bool.false_eq_true, if_false]
    exact runUpdate_no_match _ _ s rid hno
  · intro s₁ c s₂ rid p hp hno hc
    refine ⟨⟨rfl, rfl, rfl, rfl, rfl, rfl, rfl, rfl⟩, ?_, ?_⟩
    · intro hm
      simp only [update_reminder, hp, Bool.false_eq_true, if_false]
      exact runUpdate_noop _ _ s₁ c s₂ rid hno hc hm
    · intro hm
      simp only [update_reminder, hp, Bool.false_eq_true, if_false]
      exact runUpdate_changed _ _ s₁ c s₂ rid hno hc hm hc

/-- C4 witness: a missing identifier answers NotFound, and a concrete
renaming patch rewrites exactly the name of the matched category. -/
theorem update_merge_semantics_witness :
    patchFoodName.isEmpty = false ∧
    update_category [] "z" patchFoodName = (.error .notFound, []) ∧
    update_category [catFood] "c1" ⟨some "Pizza", none, none⟩ =
      (.ok (mergeCategory catFood ⟨some "Pizza", none, none⟩),
        [mergeCategory catFood ⟨some "Pizza", none, none⟩]) := by
  refine ⟨rfl, ?_, ?_⟩
  · exact update_merge_semantics.1 [] "z" patchFoodName rfl (by simp)
  · exact (update_merge_semantics.2.1 [] catFood [] "c1" ⟨some "Pizza", none, none⟩
      rfl (by simp) rfl).2.2 (by decide)

theorem normMonth_pos (y m : Int) (h : 1 ≤ m) : normMonth y m = (y, m) := by
  unfold normMonth
  rw [if_neg (by omega)]

theorem normMonth_step (y m : Int) (h : m ≤ 0) :
    normMonth y m = normMonth (y - 1) (m + 12) := by
  conv_lhs => rw [normMonth]
  rw [if_pos h]

theorem sixMonthEntry_spec (nowY nowM : Int) (store : List Transaction) (i : Int)
    (h1 : 1 ≤ nowM) (h2 : nowM ≤ 12) (hi0 : 0 ≤ i) (hi : i ≤ 11) :
    ∃ y m : Int,
      sixMonthEntry nowY nowM store i =
        { month := month_names.getD (m - 1).toNat "", year := y,
          income := total_income (monthTxs y m store),
          expense := total_expense (monthTxs y m store) } ∧
      1 ≤ m ∧ m ≤ 12 ∧ 12 * y + (m - 1) = 12 * nowY + (nowM - 1) - i := by
  by_cases h : nowM - i ≤ 0
  · have hnorm : normMonth nowY (nowM - i) = (nowY - 1, nowM - i + 12) := by
      rw [normMonth_step _ _ h, normMonth_pos _ _ (by omega)]
    exact ⟨nowY - 1, nowM - i + 12, by simp [sixMonthEntry, hnorm],
      by omega, by omega, by omega⟩
  · have hnorm : normMonth nowY (nowM - i) = (nowY, nowM - i) :=
      normMonth_pos _ _ (by omega)
    exact ⟨nowY, nowM - i, by simp [sixMonthEntry, hnorm],
      by omega, by omega, by omega⟩

/-- C5: `lastSixMonths` returns exactly six records, oldest first: the
k-th record covers the calendar month `5 - k` months before the current
one (the year rolling back when the month index leaves 1..12), labelled
with the month's three-letter abbreviation and year and carrying that
month's income and expense totals; concretely, from March 2024 it
returns Oct 2023 through Mar 2024 in order. -/
theorem last_six_months_trend :
    (∀ (nowY nowM : Int) (store : List Transaction), 1 ≤ nowM → nowM ≤ 12 →
      (get_last_six_months nowY nowM store).length = 6 ∧
      (∀ k : Nat, k < 6 →
        ∃ y m : Int,
          (get_last_six_months nowY nowM store).getD k ⟨"", 0, 0, 0⟩ =
            { month := month_names.getD (m - 1).toNat "", year := y,
              income := total_income (monthTxs y m store),
              expense := total_expense (monthTxs y m store) } ∧
          1 ≤ m ∧ m ≤ 12 ∧
          12 * y + (m - 1) = 12 * nowY + (nowM - 1) - (5 - (k : Int)))) ∧
    get_last_six_months 2024 3 [] =
      [⟨"Oct", 2023, 0, 0⟩, ⟨"Nov", 2023, 0, 0⟩, ⟨"Dec", 2023, 0, 0⟩,
       ⟨"Jan", 2024, 0, 0⟩, ⟨"Feb", 2024, 0, 0⟩, ⟨"Mar", 2024, 0, 0⟩] := by
  constructor
  · intro nowY nowM store h1 h2
    refine ⟨rfl, ?_⟩
    intro k hk
    interval_cases k
    · obtain ⟨y, m, he, hm1, hm2, heq⟩ :=
        sixMonthEntry_spec nowY nowM store 5 h1 h2 (by norm_num) (by norm_num)
      exact ⟨y, m, he, hm1, hm2, by push_cast; omega⟩
    · obtain ⟨y, m, he, hm1, hm2, heq⟩ :=
        sixMonthEntry_spec nowY nowM store 4 h1 h2 (by norm_num) (by norm_num)
      exact ⟨y, m, he, hm1, hm2, by push_cast; omega⟩
    · obtain ⟨y, m, he, hm1, hm2, heq⟩ :=
        sixMonthEntry_spec nowY nowM store 3 h1 h2 (by norm_num) (by norm_num)
      exact ⟨y, m, he, hm1, hm2, by push_cast; omega⟩
    · obtain ⟨y, m, he, hm1, hm2, heq⟩ :=
        sixMonthEntry_spec nowY nowM store 2 h1 h2 (by norm_num) (by norm_num)
      exact ⟨y, m, he, hm1, hm2, by push_cast; omega⟩
    · obtain ⟨y, m, he, hm1, hm2, heq⟩ :=
        sixMonthEntry_spec nowY nowM store 1 h1 h2 (by norm_num) (by norm_num)
      exact ⟨y, m, he, hm1, hm2, by push_cast; omega⟩
    · obtain ⟨y, m, he, hm1, hm2, heq⟩ :=
        sixMonthEntry_spec nowY nowM store 0 h1 h2 (by norm_num) (by norm_num)
      exact ⟨y, m, he, hm1, hm2, by push_cast; omega⟩
  · have e0 : normMonth 2024 (3 - 5) = (2023, 10) := by
      rw [normMonth_step _ _ (by norm_num), normMonth_pos _ _ (by norm_num)]
      norm_num
    have e1 : normMonth 2024 (3 - 4) = (2023, 11) := by
      rw [normMonth_step _ _ (by norm_num), normMonth_pos _ _ (by norm_num)]
      norm_num
    have e2 : normMonth 2024 (3 - 3) = (2023, 12) := by
      rw [normMonth_step _ _ (by norm_num), normMonth_pos _ _ (by norm_num)]
      norm_num
    have e3 : normMonth 2024 (3 - 2) = (2024, 1) := by
      rw [normMonth_pos _ _ (by norm_num)]
      norm_num
    have e4 : normMonth 2024 (3 - 1) = (2024, 2) := by
      rw [normMonth_pos _ _ (by norm_num)]
      norm_num
    have e5 : normMonth 2024 (3 - 0) = (2024, 3) := by
      rw [normMonth_pos _ _ (by norm_num)]
      norm_num
    simp only [get_last_six_months, List.map_cons, List.map_nil, sixMonthEntry,
      e0, e1, e2, e3, e4, e5]
    norm_num [month_names, monthTxs, month_filter, total_income, total_expense,
      List.getD]
    decide

/-- C5 witness: six records come back for March 2024. -/
theorem last_six_months_trend_witness :
    (1 : Int) ≤ 3 ∧ (get_last_six_months 2024 3 []).length = 6 :=
  ⟨by norm_num, (last_six_months_trend.1 2024 3 [] (by norm_num) (by norm_num)).1⟩

end Pudi
